import Mathlib

/-!
Verification of the adaptive generative-inference pipeline of Bando-Fi-AI.

Each component of the pipeline is shallow-embedded below, translated from the
TypeScript sources:
  * `AdaptiveLayerManager`        (src/models/AdaptiveLayerManager.ts)
  * `ModularPluginSystem`         (src/utils/ModularPluginSystem.ts)
  * `ProgressiveMultiScaleRefinement` (src/inference/ProgressiveMultiScaleRefinement.ts)
  * `NextGenImageModel`           (src/models/NextGenImageModel.ts)
  * `ModelHealthMonitor`          (src/optimization/ModelHealthMonitor.ts)
  * `CurriculumLearningScheduler` (src/training/CurriculumLearningScheduler.ts)
  * `SelfOptimizationSystem`      (src/optimization/SelfOptimizationSystem.ts)

JavaScript `number` values are modelled by `ℚ` (the claims under scrutiny are
control-flow contracts over order comparisons, not floating-point facts).
Mutation is modelled by explicit state passing.  `Math.random()` choices are
passed in as explicit parameters, preserving the pluggability the source design
notes call for.  Console logging is not modelled (it carries no state).
-/

namespace BandoFi

/-! ## Adaptive Layer Manager (Architecture Controller) -/

/-- Layer kinds, from the `Layer.type` union in AdaptiveLayerManager.ts. -/
inductive LayerKind
  | attention
  | convolution
  | normalization
  | activation
deriving DecidableEq

/-- Configuration record `LayerConfig`. -/
structure LayerConfig where
  minLayers : ℕ
  maxLayers : ℕ
  expansionThreshold : ℚ
  contractionThreshold : ℚ
deriving DecidableEq

/-- A processing layer; `params` is an empty object `{}` in the source and is
modelled as `Unit`. -/
structure Layer where
  id : String
  kind : LayerKind
  params : Unit
  active : Bool
  complexity : ℚ
deriving DecidableEq

/-- State of an `AdaptiveLayerManager` instance. -/
structure AdaptiveLayerManager where
  config : LayerConfig
  layers : List Layer
  complexityHistory : List ℚ
deriving DecidableEq

namespace AdaptiveLayerManager

/-- `initializeBaseLayers`: seed `minLayers` active attention layers. -/
def initializeBaseLayers (config : LayerConfig) : List Layer :=
  (List.range config.minLayers).map fun i =>
    { id := "layer_" ++ toString i
      kind := .attention
      params := ()
      active := true
      complexity := 1 }

/-- Constructor of `AdaptiveLayerManager`. -/
def new (config : LayerConfig) : AdaptiveLayerManager :=
  { config := config
    layers := initializeBaseLayers config
    complexityHistory := [] }

/-- `getActiveLayerCount`: number of layers with `active == true`. -/
def getActiveLayerCount (layers : List Layer) : ℕ :=
  (layers.filter (·.active)).length

/-- `getAverageComplexity`: mean of the history, `0.5` when empty. -/
def getAverageComplexity (hist : List ℚ) : ℚ :=
  if hist.length = 0 then 1/2 else hist.sum / hist.length

/-- `selectLayerType`; the uniform-random fallback choice of the source
(`types[Math.floor(Math.random() * types.length)]`) is supplied as the
explicit parameter `rand`. -/
def selectLayerType (avg : ℚ) (rand : LayerKind) : LayerKind :=
  if avg > 7/10 then .attention
  else if avg > 2/5 then .convolution
  else rand

/-- `findLeastImportantLayer`, the `reduce` of the source: keeps the earlier
element on ties, replaces only on strictly smaller `complexity`, so it returns
the first element attaining the minimum complexity. -/
def findLeastImportantLayer (least : Layer) : List Layer → Layer
  | [] => least
  | cur :: rest =>
      findLeastImportantLayer (if cur.complexity < least.complexity then cur else least) rest

/-- Deactivate the first occurrence of layer `x` in the list (the source
mutates the object returned by `findLeastImportantLayer` in place; layer
records are never deleted, so the first structurally-equal occurrence is that
object). -/
def deactivateFirst (x : Layer) : List Layer → List Layer
  | [] => []
  | l :: rest =>
      if l = x then { l with active := false } :: rest
      else l :: deactivateFirst x rest

/-- `expandLayers`: append one fresh active layer. -/
def expandLayers (config : LayerConfig) (avg : ℚ) (rand : LayerKind) (layers : List Layer) :
    List Layer :=
  layers ++ [{ id := "layer_" ++ toString layers.length
               kind := selectLayerType avg rand
               params := ()
               active := true
               complexity := 1 }]

/-- `contractLayers`: deactivate the least important active layer, guarded by
`activeLayers.length > minLayers`. -/
def contractLayers (config : LayerConfig) (layers : List Layer) : List Layer :=
  match layers.filter (·.active) with
  | [] => layers
  | a :: rest =>
      if (a :: rest).length > config.minLayers then
        deactivateFirst (findLeastImportantLayer a rest) layers
      else layers

/-- Branch body of `adaptLayers`: expand when the rolling average exceeds the
expansion threshold and room remains, else contract when it is below the
contraction threshold and the active count is above the minimum. -/
def adaptLayersBody (config : LayerConfig) (avg : ℚ) (rand : LayerKind)
    (layers : List Layer) : List Layer :=
  if avg > config.expansionThreshold ∧ getActiveLayerCount layers < config.maxLayers then
    expandLayers config avg rand layers
  else if avg < config.contractionThreshold ∧
      getActiveLayerCount layers > config.minLayers then
    contractLayers config layers
  else layers

/-- `adaptLayers(taskComplexity)`: push the sample into the bounded history
(capacity 10, `shift` drops the oldest), then expand or contract by at most
one step per call. -/
def adaptLayers (s : AdaptiveLayerManager) (taskComplexity : ℚ) (rand : LayerKind) :
    AdaptiveLayerManager :=
  let hist0 := s.complexityHistory ++ [taskComplexity]
  let hist := if hist0.length > 10 then hist0.drop 1 else hist0
  { config := s.config
    layers := adaptLayersBody s.config (getAverageComplexity hist) rand s.layers
    complexityHistory := hist }

/-- `getArchitectureInfo` projection: `(totalLayers, activeLayers, avgComplexity)`. -/
def getArchitectureInfo (s : AdaptiveLayerManager) : ℕ × ℕ × ℚ :=
  (s.layers.length, getActiveLayerCount s.layers, getAverageComplexity s.complexityHistory)

/-- All states reached after each call of a sequence of `adaptLayers` calls
(each call carries its complexity sample and the random layer-kind draw). -/
def adaptTrace (config : LayerConfig) (calls : List (ℚ × LayerKind)) :
    List AdaptiveLayerManager :=
  (calls.scanl (fun s c => adaptLayers s c.1 c.2) (new config)).drop 1

end AdaptiveLayerManager

/-! ## Modular Plugin System -/

/-- Plugin kinds, from the `PluginType` union in ModularPluginSystem.ts. -/
inductive PluginKind
  | loss
  | guidance
  | preprocessor
  | postprocessor
  | attentionKind
  | optimizer
deriving DecidableEq

/-- A plugin record.  The TS `execute` callable may throw; it is modelled as a
function into `Except String α`.  `validate` is the optional predicate.  The
plugin's input and output both have the opaque type `α` (TS `any`). -/
structure Plugin (α : Type) where
  id : String
  name : String
  ptype : PluginKind
  version : String
  author : Option String := none
  description : Option String := none
  execute : α → Option α → Except String α
  validate : Option (α → Bool) := none
  config : Option α := none

/-- State of a `ModularPluginSystem`: the registry (a JS object keyed by id,
modelled as an association list with unique keys maintained by
`registerPlugin`) and the `Set` of active plugin ids (insertion-ordered,
duplicate-free list). -/
structure ModularPluginSystem (α : Type) where
  plugins : List (String × Plugin α)
  activePlugins : List String

namespace ModularPluginSystem

/-- JS object indexing `this.plugins[id]`: first entry with the given key. -/
def lookupId {α : Type} (id : String) : List (String × Plugin α) → Option (Plugin α)
  | [] => none
  | kv :: rest => if kv.1 = id then some kv.2 else lookupId id rest

/-- JS `Set.add`: no-op when the element is present, append otherwise. -/
def setAdd (s : List String) (id : String) : List String :=
  if id ∈ s then s else s ++ [id]

/-- `registerPlugin`: overwrites (with a console warning) when the id exists,
otherwise appends a new entry. -/
def registerPlugin {α : Type} (sys : ModularPluginSystem α) (p : Plugin α) :
    ModularPluginSystem α :=
  if (lookupId p.id sys.plugins).isSome then
    { sys with plugins := sys.plugins.map fun kv => if kv.1 = p.id then (p.id, p) else kv }
  else
    { sys with plugins := sys.plugins ++ [(p.id, p)] }

/-- `activatePlugin`: returns `false` (after a `console.error`) when the id is
not registered, else adds the id to the active set and returns `true`. -/
def activatePlugin {α : Type} (sys : ModularPluginSystem α) (id : String) :
    Bool × ModularPluginSystem α :=
  if (lookupId id sys.plugins).isSome = false then (false, sys)
  else (true, { sys with activePlugins := setAdd sys.activePlugins id })

/-- `deactivatePlugin`: returns `false` (after a `console.warn`) when the id is
not in the active set, else deletes it and returns `true`. -/
def deactivatePlugin {α : Type} (sys : ModularPluginSystem α) (id : String) :
    Bool × ModularPluginSystem α :=
  if sys.activePlugins.contains id = false then (false, sys)
  else (true, { sys with activePlugins := sys.activePlugins.erase id })

/-- Errors thrown by `executePlugin`: the three guard failures and a wrapped
failure propagated from the plugin body. -/
inductive PluginErr
  | notFound (id : String)
  | notActive (id : String)
  | validationFailed (id : String)
  | bodyError (msg : String)
deriving DecidableEq

/-- The `try { await plugin.execute(input, config || plugin.config) }` body:
any failure of the plugin body is re-thrown to the caller. -/
def runPluginBody {α : Type} (p : Plugin α) (input : α) (config : Option α) :
    Except PluginErr α :=
  match p.execute input (config.orElse fun _ => p.config) with
  | .ok r => .ok r
  | .error e => .error (.bodyError e)

/-- Outcome of `executePlugin`; `bodyInvoked` instruments whether the plugin
body (`plugin.execute`) was applied at all. -/
structure ExecOutcome (α : Type) where
  result : Except PluginErr α
  bodyInvoked : Bool

/-- `executePlugin(id, input, config?)`: throws when the id is unregistered,
when it is not in the active set, or when the plugin's `validate` predicate
rejects the input (in that order, before the body runs); otherwise runs the
body.  The registry and the active set are returned unchanged in all cases. -/
def executePlugin {α : Type} (sys : ModularPluginSystem α) (id : String) (input : α)
    (config : Option α) : ExecOutcome α × ModularPluginSystem α :=
  match lookupId id sys.plugins with
  | none => (⟨.error (.notFound id), false⟩, sys)
  | some plugin =>
      if sys.activePlugins.contains id = false then
        (⟨.error (.notActive id), false⟩, sys)
      else
        match plugin.validate with
        | some v =>
            if v input = false then (⟨.error (.validationFailed id), false⟩, sys)
            else (⟨runPluginBody plugin input config, true⟩, sys)
        | none => (⟨runPluginBody plugin input config, true⟩, sys)

end ModularPluginSystem

/-! ## Progressive Multi-Scale Refinement (Refinement Scheduler)

The Refinement Scheduler's image pipeline is parameterised over an opaque
image type `Img` and an environment of image kernels: `upscaleImage` is
implemented in the source through a DOM canvas (`document.createElement` +
`drawImage`), and `blendImages`/`estimateQuality` operate on
`Uint8ClampedArray` pixel data; the spec fixes the scheduler's control-flow
contract, not the numerical fidelity of these kernels, so they enter the
embedding as explicit parameters.  Base-generator invocations and `onProgress`
invocations are instrumented as returned traces. -/

/-- `RefinementConfig` from ProgressiveMultiScaleRefinement.ts. -/
structure RefinementConfig where
  scales : List ℚ
  refinementSteps : ℕ
  qualityThreshold : ℚ

/-- Environment of image kernels (see the section comment). -/
structure RefinementEnv (Img : Type) where
  upscaleImage : Img → ℚ → Img
  blendImages : Img → Img → ℚ → Img
  estimateQuality : Img → ℚ → ℚ

namespace ProgressiveMultiScaleRefinement

variable {Img : Type}

/-- `refineAtScale`: upscale the current image, generate a fresh pass, and
blend with a fixed alpha of 0.3 toward the fresh pass. -/
def refineAtScale (env : RefinementEnv Img) (gen : String → ℚ → Img) (prompt : String)
    (currentImage : Img) (scale : ℚ) : Img :=
  env.blendImages (env.upscaleImage currentImage scale) (gen prompt scale) (3/10)

/-- Result of `generateProgressive`; `generatorCalls` instruments the scales
passed to `baseGenerator` in order, and `progressTrace` instruments the
`onProgress(scale, quality)` invocations in order. -/
structure ProgressiveResult (Img : Type) where
  preview : Img
  final : Img
  quality : ℚ
  generatorCalls : List ℚ
  progressTrace : List (ℚ × ℚ)

/-- The refinement loop over the indexed tail of the scale ladder: refine,
re-estimate quality at fractional progress `i / scales.length`, report
progress, and stop early the moment the quality threshold is met. -/
def refineLoop (env : RefinementEnv Img) (cfg : RefinementConfig)
    (gen : String → ℚ → Img) (prompt : String) :
    List (ℕ × ℚ) → Img → ℚ → Img × ℚ × List ℚ × List (ℚ × ℚ)
  | [], img, q => (img, q, [], [])
  | (i, scale) :: rest, img, _ =>
      let img1 := refineAtScale env gen prompt img scale
      let q1 := env.estimateQuality img1 ((i : ℚ) / (cfg.scales.length : ℚ))
      if q1 ≥ cfg.qualityThreshold then (img1, q1, [scale], [(scale, q1)])
      else
        let r := refineLoop env cfg gen prompt rest img1 q1
        (r.1, r.2.1, scale :: r.2.2.1, (scale, q1) :: r.2.2.2)

/-- `generateProgressive(prompt, baseGenerator, onProgress)`: one preview pass
at `scales[0]` (reported with quality 0.3), then the refinement loop over
`scales[1..]`.  (`generationTime` is wall-clock and not modelled.) -/
def generateProgressive (env : RefinementEnv Img) (cfg : RefinementConfig)
    (gen : String → ℚ → Img) (prompt : String) : ProgressiveResult Img :=
  let previewScale := cfg.scales.headD 0
  let preview := gen prompt previewScale
  let r := refineLoop env cfg gen prompt ((cfg.scales.drop 1).enumFrom 1) preview (3/10)
  { preview := preview
    final := r.1
    quality := r.2.1
    generatorCalls := previewScale :: r.2.2.1
    progressTrace := (previewScale, 3/10) :: r.2.2.2 }

/-- `generatePreview(prompt, generator)`: single pass at `scales[0]`. -/
def generatePreview (cfg : RefinementConfig) (gen : String → ℚ → Img) (prompt : String) :
    Img :=
  gen prompt (cfg.scales.headD 0)

end ProgressiveMultiScaleRefinement

/-! ## Next-Gen Image Model (Orchestrator) -/

/-- `GenerationOptions.resolution` tiers. -/
inductive Resolution
  | preview
  | standard
  | high
  | ultra
deriving DecidableEq

/-- Generation options (style/seed do not influence the embedded control
flow; the progress callback is modelled by the returned trace). -/
structure GenerationOptions where
  prompt : String
  resolution : Resolution

/-- State of a `NextGenImageModel` relevant to the claims: the `initialized`
guard flag, the owned Architecture Controller, and the refinement
configuration.  The remaining owned components (attention module, inference
engine, optimization system, curriculum scheduler) are untouched by
`generate`'s guarded paths under scrutiny. -/
structure NextGenImageModel where
  initialized : Bool
  layerManager : AdaptiveLayerManager
  refinementConfig : RefinementConfig

namespace NextGenImageModel

/-- The `initialize()` method: sets the initialized flag (the 100 ms simulated
delay is wall-clock and not modelled). -/
def initializeModel (m : NextGenImageModel) : NextGenImageModel :=
  { m with initialized := true }

/-- `analyzeTaskComplexity`: resolution base complexity plus a word-count
bonus capped at 0.3, all capped at 1.0.  `prompt.split(' ').length` counts
the pieces produced by splitting on single spaces (JS keeps empty pieces),
which `String.splitOn` mirrors. -/
def analyzeTaskComplexity (options : GenerationOptions) : ℚ :=
  let base : ℚ :=
    match options.resolution with
    | .preview => 1/5
    | .standard => 1/2
    | .high => 7/10
    | .ultra => 9/10
  let words : ℕ := (options.prompt.splitOn " ").length
  min 1 (base + min (3/10) ((words : ℚ) / 100))

/-- Metadata of a generation result (`generationTime` is wall-clock and
recorded as 0). -/
structure GenerationMetadata where
  generationTime : ℚ
  quality : ℚ
  memoryUsed : ℚ
  layersUsed : ℕ

/-- `generate(options)`: fails when not initialized; otherwise adapts the
architecture with the analyzed complexity, runs the preview or progressive
path, and reports progress 0.1 ("Architecture adapted"), the refinement
reports rescaled as `0.1 + 0.8 × quality`, and finally 1.0 ("Complete").
Returns the result (or error), the post-call model state, and the trace of
`(progressFraction, stageLabel)` callbacks. -/
def generate {Img : Type} (env : RefinementEnv Img) (gen : String → ℚ → Img)
    (rand : LayerKind) (m : NextGenImageModel) (options : GenerationOptions) :
    Except String (Img × GenerationMetadata) × NextGenImageModel × List (ℚ × String) :=
  if m.initialized = false then
    (.error "Model not initialized. Call initialize() first.", m, [])
  else
    let complexity := analyzeTaskComplexity options
    let lm := m.layerManager.adaptLayers complexity rand
    let m1 : NextGenImageModel := { m with layerManager := lm }
    let trace0 : List (ℚ × String) := [(1/10, "Architecture adapted")]
    let activeCount := AdaptiveLayerManager.getActiveLayerCount lm.layers
    if options.resolution = .preview then
      let img := ProgressiveMultiScaleRefinement.generatePreview
        m.refinementConfig gen options.prompt
      (.ok (img, ⟨0, 1/2, (activeCount : ℚ) * 10, activeCount⟩), m1,
        trace0 ++ [(1, "Complete")])
    else
      let r := ProgressiveMultiScaleRefinement.generateProgressive
        env m.refinementConfig gen options.prompt
      let inner := r.progressTrace.map fun p =>
        (1/10 + p.2 * (4/5), "Refining at scale " ++ toString p.1)
      (.ok (r.final, ⟨0, r.quality, (activeCount : ℚ) * 10, activeCount⟩), m1,
        trace0 ++ inner ++ [(1, "Complete")])

end NextGenImageModel

/-- Boolean check that a list of reported progress fractions is
non-decreasing. -/
def nonDecreasing : List ℚ → Bool
  | [] => true
  | [_] => true
  | a :: b :: rest => (decide (a ≤ b)) && nonDecreasing (b :: rest)

/-! ## Model Health Monitor -/

/-- An opaque JS value fed to `monitorOutput`: either a string (modelled as
its character list) or some other value compared only by identity. -/
inductive JSVal
  | str : List Char → JSVal
  | other : ℕ → JSVal
deriving DecidableEq

/-- `levenshteinDistance` of ModelHealthMonitor.ts (the standard edit-distance
dynamic program, written recursively). -/
def lev : List Char → List Char → ℕ
  | [], ys => ys.length
  | x :: xs, [] => (x :: xs).length
  | x :: xs, y :: ys =>
      if x = y then lev xs ys
      else 1 + min (lev xs ys) (min (lev xs (y :: ys)) (lev (x :: xs) ys))
termination_by xs ys => xs.length + ys.length
decreasing_by all_goals simp_arith

/-- `computeSimilarity`: normalized edit-distance similarity for two strings
(1.0 when both are empty), `1.0` for identical non-string values and `0.5`
otherwise. -/
def computeSimilarity : JSVal → JSVal → ℚ
  | .str a, .str b =>
      let longerLen := max a.length b.length
      if longerLen = 0 then 1
      else ((longerLen : ℚ) - (lev a b : ℚ)) / (longerLen : ℚ)
  | x, y => if x = y then 1 else 1/2

/-- One entry of the monitor's rolling window. -/
structure OutputEntry where
  output : JSVal
  timestamp : ℕ
  expectedPattern : Option JSVal
deriving DecidableEq

/-- `HealthThresholds` (defaults 0.7 / 0.1 / 0.3 / 0.6). -/
structure HealthThresholds where
  minStability : ℚ
  maxHallucinationRate : ℚ
  maxDriftScore : ℚ
  minConfidence : ℚ
deriving DecidableEq

/-- The default threshold values of the constructor. -/
def defaultHealthThresholds : HealthThresholds :=
  { minStability := 7/10
    maxHallucinationRate := 1/10
    maxDriftScore := 3/10
    minConfidence := 3/5 }

/-- Derived `HealthMetrics`. -/
structure HealthMetrics where
  outputStability : ℚ
  hallucinationRate : ℚ
  driftScore : ℚ
  confidenceLevel : ℚ
  anomalyDetected : Bool
deriving DecidableEq

/-- State of a `ModelHealthMonitor` (alert callbacks perform console-style
side effects only and are not part of the state model). -/
structure ModelHealthMonitor where
  thresholds : HealthThresholds
  outputHistory : List OutputEntry
  baselineMetrics : Option HealthMetrics
deriving DecidableEq

namespace ModelHealthMonitor

/-- `calculateOutputStability`: mean similarity between consecutive outputs,
`1.0` for fewer than two samples. -/
def calculateOutputStability (hist : List OutputEntry) : ℚ :=
  if hist.length < 2 then 1
  else
    ((hist.zip hist.tail).map fun pr => computeSimilarity pr.1.output pr.2.output).sum /
      ((hist.length : ℚ) - 1)

/-- The two counters of `estimateHallucinationRate`: hallucinating samples
(similarity to the expected pattern below 0.3) and samples that carry an
expected pattern at all. -/
def hallucinationCounts (hist : List OutputEntry) : ℕ × ℕ :=
  hist.foldl
    (fun acc entry =>
      match entry.expectedPattern with
      | some pat =>
          if computeSimilarity entry.output pat < 3/10 then (acc.1 + 1, acc.2 + 1)
          else (acc.1, acc.2 + 1)
      | none => acc)
    (0, 0)

/-- `estimateHallucinationRate`: fraction of pattern-carrying samples that
hallucinate, `0` when no sample carries a pattern. -/
def estimateHallucinationRate (hist : List OutputEntry) : ℚ :=
  let counts := hallucinationCounts hist
  if counts.2 > 0 then (counts.1 : ℚ) / (counts.2 : ℚ) else 0

/-- `calculateDrift`: mean of `1 − similarity` between the 10 most recent and
the 10 earliest window entries, `0` without a baseline or with fewer than 10
samples. -/
def calculateDrift (baseline : Option HealthMetrics) (hist : List OutputEntry) : ℚ :=
  if baseline.isNone ∨ hist.length < 10 then 0
  else
    let pairs := (hist.drop (hist.length - 10)).zip (hist.take 10)
    ((pairs.map fun pr => 1 - computeSimilarity pr.1.output pr.2.output).sum) /
      (pairs.length : ℚ)

/-- `calculateConfidence` = stability × (1 − hallucination rate). -/
def calculateConfidence (hist : List OutputEntry) : ℚ :=
  calculateOutputStability hist * (1 - estimateHallucinationRate hist)

/-- `detectAnomalies`: over the 5 most recent samples, the mean of
`1 − (minimum similarity to each of the preceding up-to-5 samples)` must
exceed 0.7.  (The accumulator `minSimilarity` starts at 1.0 and is lowered
with `Math.min` over the preceding entries.) -/
def detectAnomalies (hist : List OutputEntry) : Bool :=
  if hist.length < 5 then false
  else
    let recent := hist.drop (hist.length - 5)
    let previous := (hist.take (hist.length - 5)).drop (hist.length - 10)
    if previous.length = 0 then false
    else
      let anomalyScore :=
        ((recent.map fun r =>
          1 - previous.foldl (fun acc p => min acc (computeSimilarity r.output p.output)) 1).sum)
          / (recent.length : ℚ)
      decide (anomalyScore > 7/10)

/-- `calculateHealthMetrics` over the current window and baseline. -/
def calculateHealthMetrics (m : ModelHealthMonitor) : HealthMetrics :=
  { outputStability := calculateOutputStability m.outputHistory
    hallucinationRate := estimateHallucinationRate m.outputHistory
    driftScore := calculateDrift m.baselineMetrics m.outputHistory
    confidenceLevel := calculateConfidence m.outputHistory
    anomalyDetected := detectAnomalies m.outputHistory }

/-- `monitorOutput(output, expectedPattern?)`: push into the capacity-100
window, compute metrics, lazily capture the baseline from the first computed
metrics, and return the metrics.  (`checkHealthIssues` only invokes alert
callbacks and mutates no state.) -/
def monitorOutput (m : ModelHealthMonitor) (output : JSVal) (expectedPattern : Option JSVal)
    (now : ℕ) : HealthMetrics × ModelHealthMonitor :=
  let hist1 := m.outputHistory ++ [⟨output, now, expectedPattern⟩]
  let hist := if hist1.length > 100 then hist1.drop 1 else hist1
  let m1 : ModelHealthMonitor := { m with outputHistory := hist }
  let metrics := calculateHealthMetrics m1
  let m2 := if m1.baselineMetrics.isNone then { m1 with baselineMetrics := some metrics }
    else m1
  (metrics, m2)

/-- Composite health score with weights 0.3/0.3/0.2/0.2, used by
`getHealthReport` for trend comparison against the baseline. -/
def getOverallHealthScore (metrics : HealthMetrics) : ℚ :=
  metrics.outputStability * (3/10) + (1 - metrics.hallucinationRate) * (3/10) +
    (1 - metrics.driftScore) * (1/5) + metrics.confidenceLevel * (1/5)

end ModelHealthMonitor

/-- The anomaly predicate in the claim's own words: mean over the 5 most
recent samples of `1 − best-match similarity` to the preceding 5 samples
exceeds 0.7, where best-match similarity is the MAXIMUM similarity between a
sample and any of the preceding 5. -/
def anomalySpecBestMatch (hist : List OutputEntry) : Bool :=
  let recent := hist.drop (hist.length - 5)
  let preceding := (hist.take (hist.length - 5)).drop (hist.length - 10)
  decide
    (((recent.map fun r =>
      1 - preceding.foldl (fun acc p => max acc (computeSimilarity r.output p.output)) 0).sum)
      / 5 > 7/10)

/-- The amended anomaly predicate, in the spec's style but with the
worst-match (minimum) similarity the code actually computes: mean over the 5
most recent samples of `1 − worst-match similarity` to the preceding 5
samples exceeds 0.7. -/
def anomalySpecWorstMatch (hist : List OutputEntry) : Bool :=
  let recent := hist.drop (hist.length - 5)
  let preceding := (hist.take (hist.length - 5)).drop (hist.length - 10)
  decide
    (((recent.map fun r =>
      1 - preceding.foldl (fun acc p => min acc (computeSimilarity r.output p.output)) 1).sum)
      / 5 > 7/10)

/-! ## Curriculum Learning Scheduler -/

/-- One fixed curriculum stage. -/
structure CurriculumStage where
  name : String
  difficulty : ℚ
  duration : ℕ
  taskTypes : List String
  datasetSize : ℕ
deriving DecidableEq

/-- Mutable `TrainingProgress` record. -/
structure TrainingProgress where
  currentStage : ℕ
  stagesCompleted : ℕ
  totalLoss : ℚ
  avgAccuracy : ℚ
  readyForNextStage : Bool
deriving DecidableEq

/-- State of a `CurriculumLearningScheduler` instance. -/
structure CurriculumLearningScheduler where
  stages : List CurriculumStage
  currentStageIndex : ℕ
  progress : TrainingProgress
  performanceHistory : List ℚ
deriving DecidableEq

namespace CurriculumLearningScheduler

/-- `initializeCurriculum`: the five fixed stages. -/
def initializeCurriculum : List CurriculumStage :=
  [⟨"Foundation", 1/5, 1000, ["simple_shapes", "basic_colors"], 1000⟩,
   ⟨"Intermediate", 1/2, 2000, ["textures", "simple_scenes", "style_transfer"], 5000⟩,
   ⟨"Advanced", 7/10, 3000, ["complex_scenes", "multi_object", "photorealism"], 10000⟩,
   ⟨"Expert", 9/10, 5000, ["high_resolution", "fine_details", "artistic_styles"], 20000⟩,
   ⟨"Master", 1, 10000, ["all_tasks", "zero_shot", "creative_synthesis"], 50000⟩]

/-- Constructor. -/
def new : CurriculumLearningScheduler :=
  { stages := initializeCurriculum
    currentStageIndex := 0
    progress := ⟨0, 0, 0, 0, false⟩
    performanceHistory := [] }

/-- A dummy stage standing for the undefined JS value of an out-of-range
`this.stages[idx]` access (never reached from the constructor states). -/
def undefinedStage : CurriculumStage := ⟨"", 0, 0, [], 0⟩

/-- `getCurrentStage`. -/
def getCurrentStage (s : CurriculumLearningScheduler) : CurriculumStage :=
  s.stages.getD s.currentStageIndex undefinedStage

/-- `isPerformanceStable`: standard deviation of the recent window below
0.05.  The source compares `Math.sqrt(variance) < 0.05`; since both sides are
non-negative this is equivalent to `variance < 1/400`, which keeps the
embedding inside `ℚ`. -/
def isPerformanceStable (recent : List ℚ) : Bool :=
  let mean := recent.sum / (recent.length : ℚ)
  let variance := (recent.map fun v => (v - mean) ^ 2).sum / (recent.length : ℚ)
  decide (variance < 1/400)

/-- `shouldAdvanceStage`: at least 20 samples, stable, and the mean of the
last 20 at least `0.7 + 0.2 × difficulty`. -/
def shouldAdvanceStage (s : CurriculumLearningScheduler) : Bool :=
  if s.performanceHistory.length < 20 then false
  else
    let recent := s.performanceHistory.drop (s.performanceHistory.length - 20)
    let avgRecent := recent.sum / (recent.length : ℚ)
    let requiredAccuracy := 7/10 + (getCurrentStage s).difficulty * (1/5)
    isPerformanceStable recent && decide (avgRecent ≥ requiredAccuracy)

/-- `advanceStage`: increment `stagesCompleted`, move to the next stage, and
reset the rolling window. -/
def advanceStage (s : CurriculumLearningScheduler) : CurriculumLearningScheduler :=
  { s with
    currentStageIndex := s.currentStageIndex + 1
    progress := { s.progress with
      stagesCompleted := s.progress.stagesCompleted + 1
      currentStage := s.currentStageIndex + 1 }
    performanceHistory := [] }

/-- `updateProgress(loss, accuracy)`: push the accuracy into the capacity-100
window, record loss/accuracy, compute advancement eligibility, and advance
when eligible and not at the terminal stage. -/
def updateProgress (s : CurriculumLearningScheduler) (loss accuracy : ℚ) :
    TrainingProgress × CurriculumLearningScheduler :=
  let hist1 := s.performanceHistory ++ [accuracy]
  let hist := if hist1.length > 100 then hist1.drop 1 else hist1
  let s1 : CurriculumLearningScheduler := { s with
    performanceHistory := hist
    progress := { s.progress with totalLoss := loss, avgAccuracy := accuracy } }
  let shouldAdvance := shouldAdvanceStage s1
  let s2 : CurriculumLearningScheduler := { s1 with
    progress := { s1.progress with readyForNextStage := shouldAdvance } }
  let s3 := if shouldAdvance = true ∧ s2.currentStageIndex < s2.stages.length - 1 then
    advanceStage s2 else s2
  (s3.progress, s3)

/-- `getRecommendedLearningRate` = `0.001 × (1 − 0.5 × difficulty)`. -/
def getRecommendedLearningRate (s : CurriculumLearningScheduler) : ℚ :=
  (1/1000) * (1 - (getCurrentStage s).difficulty * (1/2))

/-- The scheduler state after `n` `updateProgress` calls with loss 0 and
accuracy exactly 0.95, starting from the constructor state. -/
def runUpdates (n : ℕ) : CurriculumLearningScheduler :=
  (List.replicate n ()).foldl (fun s _ => (updateProgress s 0 (19/20)).2) new

end CurriculumLearningScheduler

/-! ## Self-Optimization System (Optimization Loop) -/

/-- `BenchmarkMetrics`. -/
structure BenchmarkMetrics where
  quality : ℚ
  speed : ℚ
  memoryEfficiency : ℚ
  consistency : ℚ
deriving DecidableEq

/-- `OptimizationState`. -/
structure OptimizationState where
  generation : ℕ
  bestMetrics : BenchmarkMetrics
  currentMetrics : BenchmarkMetrics
  improvements : ℕ
  degradations : ℕ
deriving DecidableEq

/-- State of a `SelfOptimizationSystem` instance. -/
structure SelfOptimizationSystem where
  state : OptimizationState
  benchmarkHistory : List BenchmarkMetrics
  optimizationThreshold : ℚ
deriving DecidableEq

namespace SelfOptimizationSystem

/-- Constructor (the source defaults `optimizationThreshold` to 0.05). -/
def new (optimizationThreshold : ℚ) : SelfOptimizationSystem :=
  { state := ⟨0, ⟨0, 0, 0, 0⟩, ⟨0, 0, 0, 0⟩, 0, 0⟩
    benchmarkHistory := []
    optimizationThreshold := optimizationThreshold }

/-- `calculateImprovement`: weighted delta with weights 0.4 / 0.3 / 0.2 / 0.1
over quality, speed, memoryEfficiency, consistency. -/
def calculateImprovement (current best : BenchmarkMetrics) : ℚ :=
  (current.quality - best.quality) * (2/5) +
    (current.speed - best.speed) * (3/10) +
    (current.memoryEfficiency - best.memoryEfficiency) * (1/5) +
    (current.consistency - best.consistency) * (1/10)

/-- The state transition of `runOptimizationCycle`, given the benchmark
sample aggregated by `runBenchmarks`.  The sample's quality/consistency
estimators are `Math.random()` placeholders in the source and its speed and
memory estimators read wall-clock and heap probes, so the sampled metrics
enter the embedding as an explicit parameter (the injected-estimator
pluggability the spec's design notes require). -/
def runOptimizationCycle (sys : SelfOptimizationSystem) (metrics : BenchmarkMetrics) :
    OptimizationState × SelfOptimizationSystem :=
  let st0 : OptimizationState := { sys.state with currentMetrics := metrics }
  let hist := sys.benchmarkHistory ++ [metrics]
  let improvement := calculateImprovement metrics st0.bestMetrics
  let st1 :=
    if improvement > sys.optimizationThreshold then
      { st0 with bestMetrics := metrics, improvements := st0.improvements + 1 }
    else if improvement < -sys.optimizationThreshold then
      { st0 with degradations := st0.degradations + 1 }
    else st0
  let st2 : OptimizationState := { st1 with generation := st1.generation + 1 }
  (st2, { sys with state := st2, benchmarkHistory := hist })

end SelfOptimizationSystem

/-! ### Lemmas about the layer manager -/

namespace AdaptiveLayerManager

lemma mem_findLeastImportantLayer (least : Layer) (l : List Layer) :
    findLeastImportantLayer least l ∈ least :: l := by
  induction l generalizing least with
  | nil => simp [findLeastImportantLayer]
  | cons cur rest ih =>
    simp only [findLeastImportantLayer]
    by_cases hc : cur.complexity < least.complexity
    · rw [if_pos hc]
      exact List.mem_cons_of_mem least (ih cur)
    · rw [if_neg hc]
      rcases List.mem_cons.mp (ih least) with h1 | h1
      · exact List.mem_cons.mpr (Or.inl h1)
      · exact List.mem_cons_of_mem _ (List.mem_cons_of_mem _ h1)

lemma getActiveLayerCount_cons (l : Layer) (rest : List Layer) :
    getActiveLayerCount (l :: rest) =
      (if l.active then 1 else 0) + getActiveLayerCount rest := by
  by_cases h : l.active <;> simp [getActiveLayerCount, List.filter_cons, h] <;> omega

lemma deactivateFirst_count (x : Layer) (hx : x.active = true) :
    ∀ layers : List Layer, x ∈ layers →
      getActiveLayerCount (deactivateFirst x layers) + 1 = getActiveLayerCount layers := by
  intro layers
  induction layers with
  | nil => intro h; cases h
  | cons l rest ih =>
    intro hmem
    by_cases hl : l = x
    · subst hl
      have hred : deactivateFirst l (l :: rest) = { l with active := false } :: rest := by
        simp [deactivateFirst]
      rw [hred, getActiveLayerCount_cons, getActiveLayerCount_cons]
      simp [hx] <;> omega
    · have hx' : x ∈ rest := by
        rcases List.mem_cons.mp hmem with h | h
        · exact absurd h.symm hl
        · exact h
      simp only [deactivateFirst, if_neg hl]
      rw [getActiveLayerCount_cons, getActiveLayerCount_cons]
      have := ih hx'
      omega

lemma contractLayers_count (config : LayerConfig) (layers : List Layer)
    (h : config.minLayers < getActiveLayerCount layers) :
    getActiveLayerCount (contractLayers config layers) + 1 = getActiveLayerCount layers := by
  have hlen : (layers.filter (·.active)).length = getActiveLayerCount layers := rfl
  unfold contractLayers
  split
  · next hfil =>
      rw [hfil] at hlen
      simp at hlen
      omega
  · next a rest hfil =>
      rw [hfil] at hlen
      rw [if_pos (by omega)]
      have hX : findLeastImportantLayer a rest ∈ a :: rest := mem_findLeastImportantLayer a rest
      have hXfil : findLeastImportantLayer a rest ∈ layers.filter (·.active) := by
        rw [hfil]; exact hX
      have hXmem : findLeastImportantLayer a rest ∈ layers := List.mem_of_mem_filter hXfil
      have hXact : (findLeastImportantLayer a rest).active = true := by
        simpa using List.of_mem_filter hXfil
      exact deactivateFirst_count _ hXact layers hXmem

lemma expandLayers_count (config : LayerConfig) (avg : ℚ) (rand : LayerKind)
    (layers : List Layer) :
    getActiveLayerCount (expandLayers config avg rand layers) =
      getActiveLayerCount layers + 1 := by
  simp [expandLayers, getActiveLayerCount, List.filter_append]

lemma initializeBaseLayers_count (config : LayerConfig) :
    getActiveLayerCount (initializeBaseLayers config) = config.minLayers := by
  simp [initializeBaseLayers, getActiveLayerCount, List.filter_map, Function.comp_def]

lemma adaptLayers_config (s : AdaptiveLayerManager) (c : ℚ) (rand : LayerKind) :
    (adaptLayers s c rand).config = s.config := rfl

lemma adaptLayersBody_bounds (config : LayerConfig) (avg : ℚ) (rand : LayerKind)
    (layers : List Layer)
    (hmin : config.minLayers ≤ getActiveLayerCount layers)
    (hmax : getActiveLayerCount layers ≤ config.maxLayers) :
    config.minLayers ≤ getActiveLayerCount (adaptLayersBody config avg rand layers) ∧
      getActiveLayerCount (adaptLayersBody config avg rand layers) ≤ config.maxLayers := by
  unfold adaptLayersBody
  split_ifs with h1 h2
  · rw [expandLayers_count]
    omega
  · have := contractLayers_count config layers h2.2
    constructor <;> omega
  · exact ⟨hmin, hmax⟩

lemma adaptLayers_bounds (s : AdaptiveLayerManager) (c : ℚ) (rand : LayerKind)
    (hmin : s.config.minLayers ≤ getActiveLayerCount s.layers)
    (hmax : getActiveLayerCount s.layers ≤ s.config.maxLayers) :
    s.config.minLayers ≤ getActiveLayerCount (adaptLayers s c rand).layers ∧
      getActiveLayerCount (adaptLayers s c rand).layers ≤ s.config.maxLayers :=
  adaptLayersBody_bounds s.config _ rand s.layers hmin hmax

lemma scanl_inv {σ α : Type _} (step : σ → α → σ) (Inv : σ → Prop)
    (hstep : ∀ s a, Inv s → Inv (step s a)) :
    ∀ (calls : List α) (s : σ), Inv s → ∀ t ∈ calls.scanl step s, Inv t := by
  intro calls
  induction calls with
  | nil =>
      intro s hs t ht
      simp only [List.scanl_nil, List.mem_singleton] at ht
      exact ht ▸ hs
  | cons c cs ih =>
      intro s hs t ht
      rw [List.scanl_cons] at ht
      cases ht with
      | head => exact hs
      | tail _ h1 => exact ih (step s c) (hstep s c hs) t h1

end AdaptiveLayerManager

open AdaptiveLayerManager in
/-- C1: for every Architecture Controller constructed with
`minLayers ≤ maxLayers`, and for every finite sequence of `adaptLayers` calls
with arbitrary samples (and arbitrary random layer-kind draws), after every
call the number of layers with `active = true` satisfies
`minLayers ≤ activeCount ≤ maxLayers`. -/
theorem adaptLayers_active_bounds (config : LayerConfig)
    (h : config.minLayers ≤ config.maxLayers) (calls : List (ℚ × LayerKind)) :
    ∀ s ∈ adaptTrace config calls,
      config.minLayers ≤ getActiveLayerCount s.layers ∧
        getActiveLayerCount s.layers ≤ config.maxLayers := by
  intro s hs
  have hmem : s ∈ calls.scanl (fun t c => adaptLayers t c.1 c.2) (new config) :=
    List.mem_of_mem_drop hs
  have main := scanl_inv (fun t (c : ℚ × LayerKind) => adaptLayers t c.1 c.2)
    (fun t => t.config = config ∧
      config.minLayers ≤ getActiveLayerCount t.layers ∧
      getActiveLayerCount t.layers ≤ config.maxLayers)
    (fun t c ht => by
      refine ⟨(adaptLayers_config t c.1 c.2).trans ht.1, ?_⟩
      have hb := adaptLayers_bounds t c.1 c.2 (ht.1 ▸ ht.2.1) (ht.1 ▸ ht.2.2)
      exact ⟨ht.1 ▸ hb.1, ht.1 ▸ hb.2⟩)
    calls (new config)
    ⟨rfl, by simp only [new]; rw [initializeBaseLayers_count],
      by simp only [new]; rw [initializeBaseLayers_count]; exact h⟩
  exact (main s hmem).2

open AdaptiveLayerManager in
/-- Witness for C1 at the concrete configuration of the source's
`createDefaultModel` (min 4, max 12, thresholds 0.7/0.3) and two
high-complexity samples. -/
theorem adaptLayers_active_bounds_witness :
    (4 : ℕ) ≤ 12 ∧
      ∀ s ∈ adaptTrace ⟨4, 12, 7/10, 3/10⟩ [(9/10, .attention), (9/10, .attention)],
        (4 : ℕ) ≤ getActiveLayerCount s.layers ∧ getActiveLayerCount s.layers ≤ 12 :=
  ⟨by decide, adaptLayers_active_bounds ⟨4, 12, 7/10, 3/10⟩ (by decide) _⟩

/-! ### Lemmas about the plugin system -/

namespace ModularPluginSystem

lemma lookup_map_overwrite {α : Type} (p : Plugin α) :
    ∀ l : List (String × Plugin α), (lookupId p.id l).isSome →
      lookupId p.id (l.map fun kv => if kv.1 = p.id then (p.id, p) else kv) = some p := by
  intro l
  induction l with
  | nil => intro h; simp [lookupId] at h
  | cons kv rest ih =>
      intro h
      by_cases hk : kv.1 = p.id
      · simp [lookupId, hk]
      · simp only [lookupId, if_neg hk, List.map_cons] at h ⊢
        exact ih h

lemma lookup_append_self {α : Type} (p : Plugin α) :
    ∀ l : List (String × Plugin α), lookupId p.id l = none →
      lookupId p.id (l ++ [(p.id, p)]) = some p := by
  intro l
  induction l with
  | nil => intro _; simp [lookupId]
  | cons kv rest ih =>
      intro h
      by_cases hk : kv.1 = p.id
      · simp [lookupId, hk] at h
      · simp only [lookupId, if_neg hk, List.cons_append] at h ⊢
        exact ih h

lemma lookup_registerPlugin_self {α : Type} (sys : ModularPluginSystem α) (p : Plugin α) :
    (lookupId p.id (registerPlugin sys p).plugins) = some p := by
  unfold registerPlugin
  by_cases h : (lookupId p.id sys.plugins).isSome
  · rw [if_pos h]
    exact lookup_map_overwrite p sys.plugins h
  · rw [if_neg h]
    exact lookup_append_self p sys.plugins (Option.not_isSome_iff_eq_none.mp h)

lemma registerPlugin_activePlugins {α : Type} (sys : ModularPluginSystem α) (p : Plugin α) :
    (registerPlugin sys p).activePlugins = sys.activePlugins := by
  unfold registerPlugin
  split_ifs <;> rfl

end ModularPluginSystem

open ModularPluginSystem in
/-- C2: `executePlugin(id, input, config)` fails with a not-found error when
`id` is unregistered, fails with a not-active error when `id` is registered
but absent from the active set, and fails with a validation error — without
ever invoking the plugin body — when the plugin's `validate` predicate rejects
the input; in each case the registry and the active set are returned
unchanged.  In particular (fourth conjunct), registering a plugin whose id is
`"p1"` and executing `"p1"` without activating it yields the not-active error,
does not invoke the body, and leaves the post-registration system state
untouched. -/
theorem executePlugin_failure_modes {α : Type} (sys : ModularPluginSystem α)
    (id : String) (input : α) (config : Option α) :
    (lookupId id sys.plugins = none →
        executePlugin sys id input config = (⟨.error (.notFound id), false⟩, sys)) ∧
    (∀ p : Plugin α, lookupId id sys.plugins = some p →
        sys.activePlugins.contains id = false →
        executePlugin sys id input config = (⟨.error (.notActive id), false⟩, sys)) ∧
    (∀ (p : Plugin α) (v : α → Bool), lookupId id sys.plugins = some p →
        sys.activePlugins.contains id = true → p.validate = some v → v input = false →
        executePlugin sys id input config =
          (⟨.error (.validationFailed id), false⟩, sys)) ∧
    (∀ p : Plugin α, p.id = "p1" →
        (registerPlugin sys p).activePlugins.contains "p1" = false →
        executePlugin (registerPlugin sys p) "p1" input config =
          (⟨.error (.notActive "p1"), false⟩, registerPlugin sys p)) := by
  refine ⟨?_, ?_, ?_, ?_⟩
  · intro h
    unfold executePlugin
    rw [h]
  · intro p hp hact
    unfold executePlugin
    simp only [hp]
    rw [if_pos hact]
  · intro p v hp hact hv hvin
    unfold executePlugin
    simp only [hp, hv]
    rw [if_neg (by rw [hact]; simp), if_pos hvin]
  · intro p hp hact
    unfold executePlugin
    simp only [hp ▸ lookup_registerPlugin_self sys p]
    rw [if_pos hact]

/-- The empty plugin system (no registered plugins, empty active set), used to
instantiate concrete scenarios. -/
def emptyPluginSystem : ModularPluginSystem ℕ :=
  { plugins := [], activePlugins := [] }

/-- A concrete plugin with id `"p1"` (identity body, no validator). -/
def p1Plugin : Plugin ℕ :=
  { id := "p1"
    name := "P1"
    ptype := .loss
    version := "1.0.0"
    execute := fun i _ => .ok i }

open ModularPluginSystem in
/-- Witness for C2: concrete run of the `"p1"` scenario. -/
theorem executePlugin_failure_modes_witness :
    executePlugin (registerPlugin emptyPluginSystem p1Plugin) "p1" 0 none =
      (⟨.error (.notActive "p1"), false⟩, registerPlugin emptyPluginSystem p1Plugin) :=
  (executePlugin_failure_modes emptyPluginSystem "p1" 0 none).2.2.2 p1Plugin rfl (by decide)

open ModularPluginSystem in
/-- C8: for every id that is not present in the plugin registry (of a
well-formed system, whose active set only holds registered ids),
`activatePlugin` and `deactivatePlugin` both report failure (`false`) and
leave the active set — indeed the whole system state — unchanged. -/
theorem activate_deactivate_unregistered {α : Type} (sys : ModularPluginSystem α)
    (id : String) (hreg : lookupId id sys.plugins = none)
    (hwf : ∀ a ∈ sys.activePlugins, ((lookupId a sys.plugins).isSome : Prop)) :
    activatePlugin sys id = (false, sys) ∧ deactivatePlugin sys id = (false, sys) := by
  constructor
  · unfold activatePlugin
    rw [hreg]
    rfl
  · unfold deactivatePlugin
    have hnot : sys.activePlugins.contains id = false := by
      by_contra hc
      have hmem : id ∈ sys.activePlugins := by
        simpa using hc
      have := hwf id hmem
      rw [hreg] at this
      simp at this
    rw [if_pos hnot]

/-- Witness for C8: the empty system and the unregistered id `"ghost"`. -/
theorem activate_deactivate_unregistered_witness :
    ModularPluginSystem.activatePlugin emptyPluginSystem "ghost" =
        (false, emptyPluginSystem) ∧
      ModularPluginSystem.deactivatePlugin emptyPluginSystem "ghost" =
        (false, emptyPluginSystem) :=
  activate_deactivate_unregistered emptyPluginSystem "ghost" rfl (by simp [emptyPluginSystem])

/-! ### Refinement scheduler theorems -/

open ProgressiveMultiScaleRefinement in
/-- C3: on a 4-scale ladder, if the quality estimated at the first refinement
scale (fractional progress 1/4) already meets the quality threshold, then
`generateProgressive` invokes the base generator exactly twice — at the
preview scale and at the second scale — and never at the remaining scales. -/
theorem generateProgressive_early_stop {Img : Type} (env : RefinementEnv Img)
    (gen : String → ℚ → Img) (prompt : String) (s0 s1 s2 s3 qt : ℚ) (steps : ℕ)
    (h : env.estimateQuality
        (refineAtScale env gen prompt (gen prompt s0) s1) (1/4) ≥ qt) :
    (generateProgressive env ⟨[s0, s1, s2, s3], steps, qt⟩ gen prompt).generatorCalls
      = [s0, s1] := by
  unfold generateProgressive
  simp only [List.drop, List.enumFrom, List.headD, List.head?, refineLoop, List.length_cons,
    List.length_nil]
  rw [if_pos (by norm_num; exact h)]

/-- An environment over trivial images whose quality estimator always returns
1.0 (the synthetic estimator of the spec's early-stop scenario). -/
def perfectQualityEnv : RefinementEnv Unit :=
  { upscaleImage := fun _ _ => ()
    blendImages := fun _ _ _ => ()
    estimateQuality := fun _ _ => 1 }

open ProgressiveMultiScaleRefinement in
/-- Witness for C3: the synthetic always-1.0 estimator on the default 4-scale
ladder with threshold 0.85 stops after two generator calls. -/
theorem generateProgressive_early_stop_witness :
    (1 : ℚ) ≥ 17/20 ∧
      (generateProgressive perfectQualityEnv ⟨[1/4, 1/2, 3/4, 1], 4, 17/20⟩
        (fun _ _ => ()) "test").generatorCalls = [1/4, 1/2] :=
  ⟨by norm_num,
    generateProgressive_early_stop perfectQualityEnv (fun _ _ => ()) "test"
      (1/4) (1/2) (3/4) 1 (17/20) 4 (by norm_num [perfectQualityEnv])⟩

/-! ### Orchestrator theorems -/

/-- C9: calling `generate` before `initialize` fails with the
uninitialized-model error and leaves the model state — in particular the
Architecture Controller's complexity history and layers — unchanged, with no
progress reported. -/
theorem generate_uninitialized {Img : Type} (env : RefinementEnv Img)
    (gen : String → ℚ → Img) (rand : LayerKind) (m : NextGenImageModel)
    (options : GenerationOptions) (h : m.initialized = false) :
    NextGenImageModel.generate env gen rand m options =
      (.error "Model not initialized. Call initialize() first.", m, []) := by
  unfold NextGenImageModel.generate
  rw [if_pos h]

/-- A concrete freshly-constructed (not yet initialized) model with the
default configuration. -/
def freshModel : NextGenImageModel :=
  { initialized := false
    layerManager := AdaptiveLayerManager.new ⟨4, 12, 7/10, 3/10⟩
    refinementConfig := ⟨[1/4, 1/2, 3/4, 1], 4, 17/20⟩ }

/-- Witness for C9: a concrete uninitialized model fails `generate` with its
state returned intact. -/
theorem generate_uninitialized_witness :
    NextGenImageModel.generate perfectQualityEnv (fun _ _ => ()) .attention freshModel
        ⟨"a test prompt", .standard⟩ =
      (.error "Model not initialized. Call initialize() first.", freshModel, []) :=
  generate_uninitialized perfectQualityEnv (fun _ _ => ()) .attention freshModel
    ⟨"a test prompt", .standard⟩ rfl

/-! ### Progress-reporting monotonicity (C4) -/

open ProgressiveMultiScaleRefinement in
/-- The head of the progress trace of `generateProgressive` is always the
preview report at quality 0.3. -/
lemma progressTrace_shape {Img : Type} (env : RefinementEnv Img) (cfg : RefinementConfig)
    (gen : String → ℚ → Img) (prompt : String) :
    (generateProgressive env cfg gen prompt).progressTrace =
      (cfg.scales.headD 0, 3/10) ::
        (refineLoop env cfg gen prompt ((cfg.scales.drop 1).enumFrom 1)
          (gen prompt (cfg.scales.headD 0)) (3/10)).2.2.2 := rfl

/-- If the reported qualities are bounded by 1 and non-decreasing, then the
rescaled fractions `0.1 + 0.8 × quality` followed by the final `1.0` are
non-decreasing. -/
lemma nonDecreasing_progress_aux :
    ∀ (rest : List (ℚ × ℚ)) (prev : ℚ × ℚ),
      nonDecreasing ((prev :: rest).map Prod.snd) = true →
      ((prev :: rest).map Prod.snd).all (fun q => decide (q ≤ 1)) = true →
      nonDecreasing (((prev :: rest).map fun p => 1/10 + p.2 * (4/5)) ++ [1]) = true := by
  intro rest
  induction rest with
  | nil =>
      intro prev _ h2
      have hp : prev.2 ≤ 1 := by simpa using h2
      simp only [List.map_cons, List.map_nil, List.cons_append, List.nil_append,
        nonDecreasing, Bool.and_eq_true, decide_eq_true_eq]
      refine ⟨by linarith, trivial⟩
  | cons q rest ih =>
      intro prev h1 h2
      have hstep : prev.2 ≤ q.2 := by
        simp only [List.map_cons, nonDecreasing, Bool.and_eq_true, decide_eq_true_eq] at h1
        exact h1.1
      have h1' : nonDecreasing ((q :: rest).map Prod.snd) = true := by
        simp only [List.map_cons, nonDecreasing, Bool.and_eq_true] at h1 ⊢
        exact h1.2
      have h2' : ((q :: rest).map Prod.snd).all (fun x => decide (x ≤ 1)) = true := by
        simp only [List.map_cons, List.all_cons, Bool.and_eq_true] at h2 ⊢
        exact h2.2
      have hrec := ih q h1' h2'
      simp only [List.map_cons, List.cons_append] at hrec ⊢
      simp only [nonDecreasing, Bool.and_eq_true, decide_eq_true_eq]
      refine ⟨by linarith, ?_⟩
      simpa using hrec

open ProgressiveMultiScaleRefinement NextGenImageModel in
/-- C4 (amended): within a single `generate` call, the sequence of
`progressFraction` values reported to the progress callback is non-decreasing
provided the quality values reported during progressive refinement are
non-decreasing (starting from the fixed 0.3 preview report) and bounded by 1;
the code itself does not guarantee this premise, since the quality estimate
can drop between scales (see the counterexample). -/
theorem generate_progress_nonDecreasing {Img : Type} (env : RefinementEnv Img)
    (gen : String → ℚ → Img) (rand : LayerKind) (m : NextGenImageModel)
    (options : GenerationOptions)
    (hchain : nonDecreasing ((generateProgressive env m.refinementConfig gen
        options.prompt).progressTrace.map Prod.snd) = true)
    (hub : ((generateProgressive env m.refinementConfig gen
        options.prompt).progressTrace.map Prod.snd).all (fun q => decide (q ≤ 1)) = true) :
    nonDecreasing (((generate env gen rand m options).2.2).map Prod.fst) = true := by
  by_cases hinit : m.initialized = false
  · unfold generate
    rw [if_pos hinit]
    rfl
  · unfold generate
    rw [if_neg hinit]
    dsimp only
    by_cases hres : options.resolution = .preview
    · rw [if_pos hres]
      norm_num [nonDecreasing]
    · rw [if_neg hres]
      rw [progressTrace_shape] at hchain hub ⊢
      dsimp only
      simp only [List.map_append, List.map_cons, List.map_nil, List.map_map,
        List.cons_append, List.nil_append, Function.comp]
      simp only [nonDecreasing, Bool.and_eq_true, decide_eq_true_eq]
      refine ⟨by norm_num, ?_⟩
      have := nonDecreasing_progress_aux _ _ hchain hub
      simpa using this

/-- An environment over trivial images whose quality estimate equals the
value the source estimator computes on uniform gray images: variance 0 and
edge strength 0 leave only the progress term, `0.4 × progress`. -/
def grayEnv : RefinementEnv Unit :=
  { upscaleImage := fun _ _ => ()
    blendImages := fun _ _ _ => ()
    estimateQuality := fun _ progress => (2/5) * progress }

/-- A concrete initialized model with the default configuration. -/
def readyModel : NextGenImageModel :=
  { initialized := true
    layerManager := AdaptiveLayerManager.new ⟨4, 12, 7/10, 3/10⟩
    refinementConfig := ⟨[1/4, 1/2, 3/4, 1], 4, 17/20⟩ }

/-- C4 counterexample: with the default 4-scale ladder and quality threshold
0.85, a generator producing uniform gray images (quality estimate
`0.4 × progress`) makes `generate` report the fractions
0.1, 0.34, 0.18, 0.26, 0.34, 1.0 — the third report is smaller than the
second, so the reported sequence is not non-decreasing. -/
theorem generate_progress_can_decrease :
    nonDecreasing (((NextGenImageModel.generate grayEnv (fun _ _ => ()) .attention
        readyModel ⟨"gray", .standard⟩).2.2).map Prod.fst) = false := by
  norm_num [NextGenImageModel.generate, readyModel, grayEnv,
    ProgressiveMultiScaleRefinement.generateProgressive,
    ProgressiveMultiScaleRefinement.refineLoop,
    ProgressiveMultiScaleRefinement.refineAtScale, nonDecreasing, List.enumFrom]

/-- Witness for the amended C4: with the synthetic always-1.0 estimator the
premise holds (reported qualities 0.3 then 1.0) and the reported fractions are
non-decreasing. -/
theorem generate_progress_nonDecreasing_witness :
    nonDecreasing ((ProgressiveMultiScaleRefinement.generateProgressive perfectQualityEnv
        readyModel.refinementConfig (fun _ _ => ()) "test").progressTrace.map Prod.snd)
        = true ∧
      nonDecreasing (((NextGenImageModel.generate perfectQualityEnv (fun _ _ => ())
        .attention readyModel ⟨"test", .standard⟩).2.2).map Prod.fst) = true :=
  ⟨by norm_num [ProgressiveMultiScaleRefinement.generateProgressive,
      ProgressiveMultiScaleRefinement.refineLoop,
      ProgressiveMultiScaleRefinement.refineAtScale, perfectQualityEnv, readyModel,
      nonDecreasing, List.enumFrom],
    generate_progress_nonDecreasing perfectQualityEnv (fun _ _ => ()) .attention readyModel
      ⟨"test", .standard⟩
      (by norm_num [ProgressiveMultiScaleRefinement.generateProgressive,
        ProgressiveMultiScaleRefinement.refineLoop,
        ProgressiveMultiScaleRefinement.refineAtScale, perfectQualityEnv, readyModel,
        nonDecreasing, List.enumFrom])
      (by norm_num [ProgressiveMultiScaleRefinement.generateProgressive,
        ProgressiveMultiScaleRefinement.refineLoop,
        ProgressiveMultiScaleRefinement.refineAtScale, perfectQualityEnv, readyModel,
        List.enumFrom])⟩

/-! ### Health monitor theorems -/

open ModelHealthMonitor in
/-- For a window of at least 10 samples, `detectAnomalies` agrees with the
worst-match (minimum-similarity) anomaly predicate. -/
lemma detectAnomalies_eq_spec (hist : List OutputEntry) (h : 10 ≤ hist.length) :
    detectAnomalies hist = anomalySpecWorstMatch hist := by
  unfold detectAnomalies anomalySpecWorstMatch
  have h5 : ¬ hist.length < 5 := by omega
  rw [if_neg h5]
  have hrl : (hist.drop (hist.length - 5)).length = 5 := by
    rw [List.length_drop]
    omega
  have hpl : ((hist.take (hist.length - 5)).drop (hist.length - 10)).length = 5 := by
    rw [List.length_drop, List.length_take]
    omega
  dsimp only
  rw [if_neg (by rw [hpl]; omega), hrl]
  norm_num

open ModelHealthMonitor in
/-- The post-call window of `monitorOutput` is the pushed (and possibly
shifted) history, independently of the baseline-capture branch. -/
lemma monitorOutput_outputHistory (m : ModelHealthMonitor) (output : JSVal)
    (pattern : Option JSVal) (now : ℕ) :
    ((monitorOutput m output pattern now).2).outputHistory =
      (if (m.outputHistory ++ [(⟨output, now, pattern⟩ : OutputEntry)]).length > 100
        then (m.outputHistory ++ [(⟨output, now, pattern⟩ : OutputEntry)]).drop 1
        else m.outputHistory ++ [(⟨output, now, pattern⟩ : OutputEntry)]) := by
  unfold monitorOutput
  dsimp only
  split
  · rfl
  · rfl

open ModelHealthMonitor in
/-- C5 (amended): for a Health Monitor whose window holds at least 10 samples
after the call, the `anomalyDetected` flag returned by `monitorOutput` is true
exactly when the mean, over the 5 most recent samples, of `1 −` the
worst-match (minimum) similarity to the preceding 5 samples exceeds 0.7. -/
theorem monitorOutput_anomaly_worstMatch (m : ModelHealthMonitor) (output : JSVal)
    (pattern : Option JSVal) (now : ℕ)
    (h : 10 ≤ ((monitorOutput m output pattern now).2).outputHistory.length) :
    ((monitorOutput m output pattern now).1).anomalyDetected =
      anomalySpecWorstMatch ((monitorOutput m output pattern now).2).outputHistory := by
  rw [monitorOutput_outputHistory] at h ⊢
  exact detectAnomalies_eq_spec _ h

/-- A window entry holding the one-character string "a". -/
def aEntry : OutputEntry := ⟨.str ['a'], 0, none⟩

/-- A window entry holding the one-character string "b". -/
def bEntry : OutputEntry := ⟨.str ['b'], 0, none⟩

/-- A monitor that has already seen 4 × "a" followed by 5 × "b". -/
def monitor9 : ModelHealthMonitor :=
  { thresholds := defaultHealthThresholds
    outputHistory := [aEntry, aEntry, aEntry, aEntry, bEntry, bEntry, bEntry, bEntry, bEntry]
    baselineMetrics := none }

open ModelHealthMonitor in
/-- C5 counterexample: feeding a 10th sample "b" to `monitor9` raises the
anomaly flag (every recent sample has minimum similarity 0 to the preceding
window half, mean score 1 > 0.7), while the claim's best-match (maximum)
formula scores 0 and stays below 0.7 — so the claimed equivalence with the
best-match mean is false. -/
theorem monitorOutput_anomaly_not_bestMatch :
    ((monitorOutput monitor9 (.str ['b']) none 0).1.anomalyDetected = true) ∧
      anomalySpecBestMatch ((monitorOutput monitor9 (.str ['b']) none 0).2.outputHistory)
        = false := by
  have hba : computeSimilarity (.str ['b']) (.str ['a']) = 0 := by
    norm_num [computeSimilarity, lev, show ¬ ('b' = 'a') from by decide]
  have hbb : computeSimilarity (.str ['b']) (.str ['b']) = 1 := by
    norm_num [computeSimilarity, lev]
  constructor
  · norm_num [monitorOutput, calculateHealthMetrics, detectAnomalies, monitor9, aEntry,
      bEntry, hba, hbb, min_def, max_def, decide_eq_true_eq]
  · norm_num [monitorOutput, anomalySpecBestMatch, monitor9, aEntry, bEntry, hba, hbb,
      min_def, max_def, decide_eq_false_iff_not, decide_eq_true_eq]

open ModelHealthMonitor in
/-- Witness for the amended C5: the concrete 10-sample run of the
counterexample satisfies the window-size premise, and the flag agrees with
the worst-match formula there. -/
theorem monitorOutput_anomaly_worstMatch_witness :
    10 ≤ ((monitorOutput monitor9 (.str ['b']) none 0).2).outputHistory.length ∧
      ((monitorOutput monitor9 (.str ['b']) none 0).1).anomalyDetected =
        anomalySpecWorstMatch
          ((monitorOutput monitor9 (.str ['b']) none 0).2).outputHistory :=
  ⟨by norm_num [monitorOutput, monitor9, aEntry, bEntry],
    monitorOutput_anomaly_worstMatch monitor9 (.str ['b']) none 0
      (by norm_num [monitorOutput, monitor9, aEntry, bEntry])⟩

/-! ### Curriculum scheduler theorems -/

open CurriculumLearningScheduler in
/-- C6: starting the Curriculum Controller at stage 0 (difficulty 0.2,
required mean 0.74) and feeding 25 consecutive `updateProgress` calls with
accuracy exactly 0.95, the controller ends at stage 1 with
`stagesCompleted = 1` (each advancement increments `stagesCompleted` by one,
so it advanced exactly once), and the rolling window is empty immediately
after the advancing 20th call. -/
theorem curriculum_25_updates :
    (runUpdates 25).progress.stagesCompleted = 1 ∧
      (runUpdates 25).currentStageIndex = 1 ∧
      (runUpdates 20).performanceHistory = [] := by
  norm_num [runUpdates, updateProgress, shouldAdvanceStage, isPerformanceStable,
    getCurrentStage, advanceStage, CurriculumLearningScheduler.new, initializeCurriculum,
    undefinedStage, List.replicate, decide_eq_true_eq]

/-! ### Optimization loop theorems -/

open SelfOptimizationSystem in
/-- C7: on every completed `runOptimizationCycle` step (with a non-negative
configured threshold), with `d` the weighted delta between the new benchmark
sample and `bestMetrics`: `d > threshold` replaces `bestMetrics` and
increments only the improvements counter; `d < -threshold` increments only
the degradations counter; otherwise `bestMetrics` and both counters are
unchanged — and in all three cases the generation counter increments by
exactly one. -/
theorem runOptimizationCycle_trichotomy (sys : SelfOptimizationSystem)
    (metrics : BenchmarkMetrics) (hth : 0 ≤ sys.optimizationThreshold) :
    (calculateImprovement metrics sys.state.bestMetrics > sys.optimizationThreshold →
        (runOptimizationCycle sys metrics).1.bestMetrics = metrics ∧
          (runOptimizationCycle sys metrics).1.improvements = sys.state.improvements + 1 ∧
          (runOptimizationCycle sys metrics).1.degradations = sys.state.degradations) ∧
    (calculateImprovement metrics sys.state.bestMetrics < -sys.optimizationThreshold →
        (runOptimizationCycle sys metrics).1.degradations = sys.state.degradations + 1 ∧
          (runOptimizationCycle sys metrics).1.bestMetrics = sys.state.bestMetrics ∧
          (runOptimizationCycle sys metrics).1.improvements = sys.state.improvements) ∧
    (¬ calculateImprovement metrics sys.state.bestMetrics > sys.optimizationThreshold →
      ¬ calculateImprovement metrics sys.state.bestMetrics < -sys.optimizationThreshold →
        (runOptimizationCycle sys metrics).1.bestMetrics = sys.state.bestMetrics ∧
          (runOptimizationCycle sys metrics).1.improvements = sys.state.improvements ∧
          (runOptimizationCycle sys metrics).1.degradations = sys.state.degradations) ∧
    (runOptimizationCycle sys metrics).1.generation = sys.state.generation + 1 := by
  unfold runOptimizationCycle
  dsimp only
  split_ifs with h1 h2
  · refine ⟨fun _ => ⟨rfl, rfl, rfl⟩, fun hd => absurd hd (by linarith), fun hc _ => absurd h1 hc,
      rfl⟩
  · exact ⟨fun hd => absurd hd h1, fun _ => ⟨rfl, rfl, rfl⟩, fun _ hc => absurd h2 hc, rfl⟩
  · exact ⟨fun hd => absurd hd h1, fun hd => absurd hd h2, fun _ _ => ⟨rfl, rfl, rfl⟩, rfl⟩

open SelfOptimizationSystem in
/-- Witness for C7: from the zero initial best metrics, a sample of quality 1
gives delta 0.4 above the default threshold 0.05, so the improvement branch
fires and the generation counter ticks. -/
theorem runOptimizationCycle_trichotomy_witness :
    (0 : ℚ) ≤ (SelfOptimizationSystem.new (1/20)).optimizationThreshold ∧
      calculateImprovement ⟨1, 0, 0, 0⟩
          (SelfOptimizationSystem.new (1/20)).state.bestMetrics >
        (SelfOptimizationSystem.new (1/20)).optimizationThreshold ∧
      (runOptimizationCycle (SelfOptimizationSystem.new (1/20)) ⟨1, 0, 0, 0⟩).1.bestMetrics
          = ⟨1, 0, 0, 0⟩ ∧
      (runOptimizationCycle (SelfOptimizationSystem.new (1/20)) ⟨1, 0, 0, 0⟩).1.improvements
          = (SelfOptimizationSystem.new (1/20)).state.improvements + 1 ∧
      (runOptimizationCycle (SelfOptimizationSystem.new (1/20)) ⟨1, 0, 0, 0⟩).1.generation
          = (SelfOptimizationSystem.new (1/20)).state.generation + 1 := by
  have hth : (0 : ℚ) ≤ (SelfOptimizationSystem.new (1/20)).optimizationThreshold := by
    norm_num [SelfOptimizationSystem.new]
  have hd : calculateImprovement ⟨1, 0, 0, 0⟩
      (SelfOptimizationSystem.new (1/20)).state.bestMetrics >
      (SelfOptimizationSystem.new (1/20)).optimizationThreshold := by
    norm_num [calculateImprovement, SelfOptimizationSystem.new]
  have main := runOptimizationCycle_trichotomy (SelfOptimizationSystem.new (1/20))
    ⟨1, 0, 0, 0⟩ hth
  exact ⟨hth, hd, (main.1 hd).1, (main.1 hd).2.1, main.2.2.2⟩

open ModelHealthMonitor in
/-- C10: the very first `monitorOutput` call (empty prior history) returns
metrics with `outputStability = 1`, `driftScore = 0` and
`anomalyDetected = false`, for every supplied output and optional expected
pattern, and captures exactly these first metrics as the baseline. -/
theorem monitorOutput_first_call (ts : HealthThresholds) (output : JSVal)
    (pattern : Option JSVal) (now : ℕ) :
    (monitorOutput ⟨ts, [], none⟩ output pattern now).1.outputStability = 1 ∧
      (monitorOutput ⟨ts, [], none⟩ output pattern now).1.driftScore = 0 ∧
      (monitorOutput ⟨ts, [], none⟩ output pattern now).1.anomalyDetected = false ∧
      (monitorOutput ⟨ts, [], none⟩ output pattern now).2.baselineMetrics =
        some (monitorOutput ⟨ts, [], none⟩ output pattern now).1 :=
  ⟨rfl, rfl, rfl, rfl⟩

end BandoFi
